import Mathlib

/-!
Verification of the Critical Blender content-generation scripts

A shallow embedding, over exact rational arithmetic, of the numeric and
control-flow content of the five Python scripts of the repository:

* `src/Updates/Screen2_RCS_Primary_Loop/BlenderArcGauge_v1.py`
* `src/Updates/Archive_DEPRECATED/Changelogs/Screen2_RCS_Primary_Loop/BlenderTemperatureGauge_v1.py`
* `src/Updates/Screen2_RCS_Primary_Loop/RCS_Primary_Loop_Blender.py`
* `src/Assets/Scripts/Blender/create_reactor_panel.py`
* `src/Assets/Scripts/Blender/render_panel_textures.py`

Python floats are modelled as `ℚ` (exact arithmetic); angles are kept in
degrees wherever the code keeps them in degrees, and the final
`math.radians` conversion (multiplication by `π / 180`) appears explicitly
in theorem statements over `ℝ`.  Calls into the Blender API are modelled
by records describing the created objects (their kind, placement and
extent), and fallible operations by `Option` / `Except`.
-/

/-! ## Shared helpers -/

/-- The Python `%` operator on numbers with a nonzero right operand: `a % b = a - b * ⌊a / b⌋`
(the result takes the sign of the divisor).  For `b = 0` Python raises; this total
model returns `a` in that (unused) case, since `⌊a / 0⌋ = 0`. -/
def pymod (a b : ℚ) : ℚ := a - b * ⌊a / b⌋

/-- The Python `value == int(value)` test: a float compares equal to its integer
truncation exactly when it is a whole number; for a rational that is `den = 1`. -/
def pyIsWhole (v : ℚ) : Bool := v.den = 1

/-- One step bound for the gauge while-loops
`value = v0; while value <= B: ...; value += step`:
with `0 < step` the loop body runs exactly `(⌊(B - v0) / step⌋ + 1).toNat` times. -/
def iterCount (v0 B step : ℚ) : ℕ := (⌊(B - v0) / step⌋ + 1).toNat

/-- Fuel-driven unfolding of the while-loop
`value = v0; while value <= B: emit value; value += step` found in both gauge
scripts.  The fuel only bounds the iteration count; `tickLoop_eq_map` shows the
fuel chosen in `tickValues` simulates the Python loop exactly when `0 < step`. -/
def tickLoopAux (B step : ℚ) : ℕ → ℚ → List ℚ
  | 0, _ => []
  | fuel + 1, v => if v ≤ B then v :: tickLoopAux B step fuel (v + step) else []

/-- The list of values emitted by the Python loop
`value = v0; while value <= B: emit value; value += step`. -/
def tickValues (v0 B step : ℚ) : List ℚ := tickLoopAux B step (iterCount v0 B step) v0

theorem tickLoopAux_eq_map (B step : ℚ) (hstep : 0 < step) :
    ∀ (fuel : ℕ) (v : ℚ), fuel = iterCount v B step →
      tickLoopAux B step fuel v = (List.range fuel).map (fun k : ℕ => v + (k : ℚ) * step) := by
  intro fuel
  induction fuel with
  | zero => intro v _; simp [tickLoopAux]
  | succ n ih =>
    intro v hv
    have hfloor : (⌊(B - v) / step⌋ + 1).toNat = n + 1 := hv.symm
    have hpos : 0 < ⌊(B - v) / step⌋ + 1 := by
      by_contra hneg
      push_neg at hneg
      rw [Int.toNat_of_nonpos hneg] at hfloor
      exact Nat.succ_ne_zero n hfloor.symm
    have hfloor' : ⌊(B - v) / step⌋ + 1 = (n : ℤ) + 1 := by
      have := Int.toNat_of_nonneg (le_of_lt hpos)
      omega
    have hle : v ≤ B := by
      have h0 : (0 : ℤ) ≤ ⌊(B - v) / step⌋ := by omega
      have hq : (0 : ℚ) ≤ (B - v) / step := le_trans (by exact_mod_cast h0) (Int.floor_le _)
      have hm : (0 : ℚ) ≤ ((B - v) / step) * step := mul_nonneg hq (le_of_lt hstep)
      rw [div_mul_cancel₀ _ (ne_of_gt hstep)] at hm
      linarith
    have hnext : n = iterCount (v + step) B step := by
      have hdiv : (B - (v + step)) / step = (B - v) / step - 1 := by
        field_simp
        ring
      unfold iterCount
      rw [hdiv, Int.floor_sub_one]
      omega
    rw [tickLoopAux, if_pos hle, ih (v + step) hnext, List.range_succ_eq_map,
      List.map_cons, List.map_map]
    refine congrArg₂ List.cons (by push_cast; ring) ?_
    apply List.map_congr_left
    intro k _
    simp only [Function.comp_apply]
    push_cast
    ring

theorem tickValues_eq_map (v0 B step : ℚ) (hstep : 0 < step) :
    tickValues v0 B step = (List.range (iterCount v0 B step)).map (fun k : ℕ => v0 + (k : ℚ) * step) :=
  tickLoopAux_eq_map B step hstep _ v0 rfl

/-- Membership characterisation of the while-loop output: exactly the values
`v0 + k * step` that do not exceed the bound. -/
theorem mem_tickValues (v0 B step : ℚ) (hstep : 0 < step) (x : ℚ) :
    x ∈ tickValues v0 B step ↔ ∃ k : ℕ, x = v0 + (k : ℚ) * step ∧ x ≤ B := by
  rw [tickValues_eq_map v0 B step hstep]
  simp only [List.mem_map, List.mem_range]
  constructor
  · rintro ⟨k, hk, hx⟩
    refine ⟨k, hx.symm, ?_⟩
    have hk' : (k : ℤ) < ⌊(B - v0) / step⌋ + 1 := by
      have := Int.lt_toNat.mp hk
      omega
    have hkle : (k : ℚ) ≤ (B - v0) / step := by
      have h2 : (k : ℤ) ≤ ⌊(B - v0) / step⌋ := by omega
      calc (k : ℚ) = ((k : ℤ) : ℚ) := by push_cast; ring
        _ ≤ ((⌊(B - v0) / step⌋ : ℤ) : ℚ) := by exact_mod_cast h2
        _ ≤ (B - v0) / step := Int.floor_le _
    rw [← hx]
    nlinarith [(le_div_iff₀ hstep).mp hkle]
  · rintro ⟨k, hx, hle⟩
    refine ⟨k, ?_, hx.symm⟩
    have h1 : (k : ℚ) ≤ (B - v0) / step := by
      rw [le_div_iff₀ hstep]
      linarith [hx ▸ hle]
    have h2 : (k : ℤ) ≤ ⌊(B - v0) / step⌋ := Int.le_floor.mpr (by exact_mod_cast h1)
    exact Int.lt_toNat.mpr (by omega)

/-- The Python `/` on rationals: `ZeroDivisionError` (modelled as `none`) when the
divisor is zero, otherwise exact division. -/
def pydiv (a b : ℚ) : Option ℚ := if b = 0 then none else some (a / b)

/-! ## BlenderArcGauge_v1.py -/

namespace ArcGauge

/-- The numeric fields of `class GaugeConfig` of `BlenderArcGauge_v1.py`.
Zones are `(start_value, end_value)` pairs; per the source comment
("Leave empty list for no zones") a zone may be absent, which the code tests
by truthiness, so zones are modelled as `Option`.  Purely cosmetic fields
(name, label, units, colors, text sizes, needle and bezel dimensions) play no
part in any claim and are omitted. -/
structure GaugeConfig where
  min_value : ℚ
  max_value : ℚ
  major_tick_interval : ℚ
  minor_tick_interval : ℚ
  sweep_angle : ℚ
  start_angle : ℚ
  zone_normal : Option (ℚ × ℚ)
  zone_warning : Option (ℚ × ℚ)
  zone_danger : Option (ℚ × ℚ)

/-- The default values of `class GaugeConfig`. -/
def defaultConfig : GaugeConfig :=
  ⟨100, 700, 100, 20, 270, 225, some (100, 550), some (550, 620), some (620, 700)⟩

/-- Function `value_to_angle` of `BlenderArcGauge_v1.py` up to its final `math.radians`
call: the returned angle in degrees.  (`math.radians x = x * π / 180`; the
conversion is applied explicitly in the theorems, π not being computable.) -/
def value_to_angle_deg (value : ℚ) (config : GaugeConfig) : ℚ :=
  let normalized := (value - config.min_value) / (config.max_value - config.min_value)
  let normalized := max 0 (min 1 normalized)
  config.start_angle - normalized * config.sweep_angle

/-- Function `value_to_angle` with the Python division-by-zero failure made explicit. -/
def value_to_angle_deg_checked (value : ℚ) (config : GaugeConfig) : Option ℚ := do
  let normalized ← pydiv (value - config.min_value) (config.max_value - config.min_value)
  let normalized := max 0 (min 1 normalized)
  pure (config.start_angle - normalized * config.sweep_angle)

/-- The values visited by the major-tick loop of `create_gauge`
(`value = config.min_value; while value <= config.max_value + 0.001: ...;
value += config.major_tick_interval`).  The numbers loop visits the same
values. -/
def major_tick_values (config : GaugeConfig) : List ℚ :=
  tickValues config.min_value (config.max_value + 1/1000) config.major_tick_interval

/-- The number formatting of the numbers loop of `create_gauge`:
`str(int(value))` when `value == int(value)`, else `f"{value:.1f}"`.
The one-decimal float formatting of the non-whole branch is taken as a
parameter. -/
def number_text (oneDecimal : ℚ → String) (value : ℚ) : String :=
  if pyIsWhole value then toString value.num else oneDecimal value

/-- The label texts created by the numbers loop of `create_gauge` (same loop
bounds as the major ticks). -/
def number_texts (oneDecimal : ℚ → String) (config : GaugeConfig) : List String :=
  (tickValues config.min_value (config.max_value + 1/1000) config.major_tick_interval).map
    (number_text oneDecimal)

/-- The zone guard of `create_gauge`:
`if config.zone_X and config.zone_X[0] < config.zone_X[1]`. -/
def zoneActive : Option (ℚ × ℚ) → Bool
  | none => false
  | some (a, b) => decide (a < b)

/-- The color-zone band objects created by `create_gauge`, in source order. -/
def zone_band_names (config : GaugeConfig) : List String :=
  (if zoneActive config.zone_normal then ["Zone_Normal"] else []) ++
    (if zoneActive config.zone_warning then ["Zone_Warning"] else []) ++
      (if zoneActive config.zone_danger then ["Zone_Danger"] else [])

/-- The skip guard of the minor-tick loop of `create_gauge`:
`abs((value - config.min_value) % config.major_tick_interval) > 0.001`
(a minor tick is created only when this is `true`). -/
def minor_guard (config : GaugeConfig) (value : ℚ) : Bool :=
  decide (1/1000 < |pymod (value - config.min_value) config.major_tick_interval|)

end ArcGauge

/-! ## BlenderTemperatureGauge_v1.py -/

namespace BarGauge

/-- The numeric fields of `class BarGaugeConfig` of
`BlenderTemperatureGauge_v1.py` used by the claims (cosmetic fields omitted,
as for the arc gauge). -/
structure BarGaugeConfig where
  min_value : ℚ
  max_value : ℚ
  major_tick_interval : ℚ
  minor_tick_interval : ℚ
  zone_normal : Option (ℚ × ℚ)
  zone_warning : Option (ℚ × ℚ)
  zone_danger : Option (ℚ × ℚ)

/-- The default values of `class BarGaugeConfig`. -/
def defaultConfig : BarGaugeConfig :=
  ⟨100, 700, 100, 20, some (100, 550), some (550, 620), some (620, 700)⟩

/-- Function `value_to_normalized` of `BlenderTemperatureGauge_v1.py`. -/
def value_to_normalized (value : ℚ) (config : BarGaugeConfig) : ℚ :=
  let normalized := (value - config.min_value) / (config.max_value - config.min_value)
  max 0 (min 1 normalized)

/-- Function `value_to_normalized` with the Python division-by-zero failure made
explicit. -/
def value_to_normalized_checked (value : ℚ) (config : BarGaugeConfig) : Option ℚ := do
  let normalized ← pydiv (value - config.min_value) (config.max_value - config.min_value)
  pure (max 0 (min 1 normalized))

/-- The values visited by the major-tick loop of `create_bar_gauge` (the
numbers loop visits the same values). -/
def major_tick_values (config : BarGaugeConfig) : List ℚ :=
  tickValues config.min_value (config.max_value + 1/1000) config.major_tick_interval

/-- The number formatting of the numbers loop of `create_bar_gauge`:
`str(int(value))` when `value == int(value)`, else `f"{value:.0f}"` (the
zero-decimal formatting of the non-whole branch is a parameter). -/
def number_text (zeroDecimal : ℚ → String) (value : ℚ) : String :=
  if pyIsWhole value then toString value.num else zeroDecimal value

/-- The label texts created by the numbers loop of `create_bar_gauge`. -/
def number_texts (zeroDecimal : ℚ → String) (config : BarGaugeConfig) : List String :=
  (tickValues config.min_value (config.max_value + 1/1000) config.major_tick_interval).map
    (number_text zeroDecimal)

/-- The guard of the local `create_zone` helper of `create_bar_gauge`:
`if zone_range and zone_range[0] < zone_range[1]`. -/
def zoneActive : Option (ℚ × ℚ) → Bool
  | none => false
  | some (a, b) => decide (a < b)

/-- The zone bars created by the three `create_zone` calls of
`create_bar_gauge`, in source order. -/
def zone_band_names (config : BarGaugeConfig) : List String :=
  (if zoneActive config.zone_normal then ["Zone_Normal"] else []) ++
    (if zoneActive config.zone_warning then ["Zone_Warning"] else []) ++
      (if zoneActive config.zone_danger then ["Zone_Danger"] else [])

/-- The skip guard of the minor-tick loop of `create_bar_gauge` (same formula
as in the arc gauge script). -/
def minor_guard (config : BarGaugeConfig) (value : ℚ) : Bool :=
  decide (1/1000 < |pymod (value - config.min_value) config.major_tick_interval|)

end BarGauge

/-! ## Claim C1: value_to_angle -/

/-- The clamped normalised fraction named in claim C1:
`n = max(0, min(1, (v - min_value) / (max_value - min_value)))`. -/
def clampedFraction (v minv maxv : ℚ) : ℚ := max 0 (min 1 ((v - minv) / (maxv - minv)))

theorem clampedFraction_nonneg (v minv maxv : ℚ) : 0 ≤ clampedFraction v minv maxv :=
  le_max_left 0 _

theorem clampedFraction_le_one (v minv maxv : ℚ) : clampedFraction v minv maxv ≤ 1 :=
  max_le (by norm_num) (min_le_left 1 _)

/-- An unordered-between fact survives multiplication by a nonnegative real
factor (used to carry degree bounds through the `math.radians` conversion). -/
theorem between_cast_mul_nonneg (a b x : ℚ) (c : ℝ) (hc : 0 ≤ c)
    (h1 : min a b ≤ x) (h2 : x ≤ max a b) :
    min ((a : ℝ) * c) ((b : ℝ) * c) ≤ (x : ℝ) * c ∧
      (x : ℝ) * c ≤ max ((a : ℝ) * c) ((b : ℝ) * c) := by
  rcases le_total a b with hab | hab
  · rw [min_eq_left hab] at h1
    rw [max_eq_right hab] at h2
    have hab' : (a : ℝ) * c ≤ (b : ℝ) * c :=
      mul_le_mul_of_nonneg_right (by exact_mod_cast hab) hc
    rw [min_eq_left hab', max_eq_right hab']
    exact ⟨mul_le_mul_of_nonneg_right (by exact_mod_cast h1) hc,
      mul_le_mul_of_nonneg_right (by exact_mod_cast h2) hc⟩
  · rw [min_eq_right hab] at h1
    rw [max_eq_left hab] at h2
    have hab' : (b : ℝ) * c ≤ (a : ℝ) * c :=
      mul_le_mul_of_nonneg_right (by exact_mod_cast hab) hc
    rw [min_eq_right hab', max_eq_left hab']
    exact ⟨mul_le_mul_of_nonneg_right (by exact_mod_cast h1) hc,
      mul_le_mul_of_nonneg_right (by exact_mod_cast h2) hc⟩

/-- A value of the form `s - n * sw` with `n ∈ [0, 1]` lies between `s - sw`
and `s`, whatever the sign of `sw`. -/
theorem sub_smul_between (s sw n : ℚ) (h0 : 0 ≤ n) (h1 : n ≤ 1) :
    min (s - sw) s ≤ s - n * sw ∧ s - n * sw ≤ max (s - sw) s := by
  rcases le_total 0 sw with hsw | hsw
  · constructor
    · calc min (s - sw) s ≤ s - sw := min_le_left _ _
        _ ≤ s - n * sw := by nlinarith
    · calc s - n * sw ≤ s := by nlinarith
        _ ≤ max (s - sw) s := le_max_right _ _
  · constructor
    · calc min (s - sw) s ≤ s := min_le_right _ _
        _ ≤ s - n * sw := by nlinarith
    · calc s - n * sw ≤ s - sw := by nlinarith
        _ ≤ max (s - sw) s := le_max_left _ _

/-- C1: for every gauge configuration with `min_value < max_value` and every
value `v`, `value_to_angle(v, config)` returns
`math.radians(start_angle - n * sweep_angle)` where
`n = max(0, min(1, (v - min_value) / (max_value - min_value)))`, and the
result lies between `radians(start_angle - sweep_angle)` and
`radians(start_angle)`. -/
theorem value_to_angle_matches_claim (config : ArcGauge.GaugeConfig) (v : ℚ)
    (h : config.min_value < config.max_value) :
    (ArcGauge.value_to_angle_deg v config : ℝ) * (Real.pi / 180) =
      ((config.start_angle - clampedFraction v config.min_value config.max_value *
        config.sweep_angle : ℚ) : ℝ) * (Real.pi / 180) ∧
    min (((config.start_angle - config.sweep_angle : ℚ) : ℝ) * (Real.pi / 180))
        ((config.start_angle : ℚ) * (Real.pi / 180)) ≤
      (ArcGauge.value_to_angle_deg v config : ℝ) * (Real.pi / 180) ∧
    (ArcGauge.value_to_angle_deg v config : ℝ) * (Real.pi / 180) ≤
      max (((config.start_angle - config.sweep_angle : ℚ) : ℝ) * (Real.pi / 180))
        ((config.start_angle : ℚ) * (Real.pi / 180)) := by
  have hdeg : ArcGauge.value_to_angle_deg v config =
      config.start_angle - clampedFraction v config.min_value config.max_value *
        config.sweep_angle := rfl
  have hpi : (0 : ℝ) ≤ Real.pi / 180 := by positivity
  have hbetween := sub_smul_between config.start_angle config.sweep_angle
    (clampedFraction v config.min_value config.max_value)
    (clampedFraction_nonneg v config.min_value config.max_value)
    (clampedFraction_le_one v config.min_value config.max_value)
  have hcast := between_cast_mul_nonneg (config.start_angle - config.sweep_angle)
    config.start_angle (ArcGauge.value_to_angle_deg v config) (Real.pi / 180) hpi
    (by rw [hdeg]; exact hbetween.1) (by rw [hdeg]; exact hbetween.2)
  exact ⟨by rw [hdeg], hcast.1, hcast.2⟩

/-- C1 witness: the theorem applied to the default configuration of the script at
value 360. -/
theorem value_to_angle_matches_claim_witness :
    (100 : ℚ) < 700 ∧
    ((ArcGauge.value_to_angle_deg 360 ArcGauge.defaultConfig : ℝ) * (Real.pi / 180) =
      ((ArcGauge.defaultConfig.start_angle -
        clampedFraction 360 ArcGauge.defaultConfig.min_value ArcGauge.defaultConfig.max_value *
        ArcGauge.defaultConfig.sweep_angle : ℚ) : ℝ) * (Real.pi / 180) ∧
    min (((ArcGauge.defaultConfig.start_angle - ArcGauge.defaultConfig.sweep_angle : ℚ) : ℝ) *
          (Real.pi / 180))
        ((ArcGauge.defaultConfig.start_angle : ℚ) * (Real.pi / 180)) ≤
      (ArcGauge.value_to_angle_deg 360 ArcGauge.defaultConfig : ℝ) * (Real.pi / 180) ∧
    (ArcGauge.value_to_angle_deg 360 ArcGauge.defaultConfig : ℝ) * (Real.pi / 180) ≤
      max (((ArcGauge.defaultConfig.start_angle - ArcGauge.defaultConfig.sweep_angle : ℚ) : ℝ) *
          (Real.pi / 180))
        ((ArcGauge.defaultConfig.start_angle : ℚ) * (Real.pi / 180))) :=
  ⟨by norm_num, value_to_angle_matches_claim ArcGauge.defaultConfig 360 (by decide)⟩

/-! ## Claim C6: totality of the value-conversion helpers -/

/-- C6: the coordinate-arithmetic helpers fail only on malformed input: each
checked evaluation succeeds (returning exactly the unchecked value) iff
`max_value ≠ min_value`, and the single division is the only failure, raised
iff `max_value = min_value`. -/
theorem value_conversion_total_iff (config : ArcGauge.GaugeConfig)
    (bconfig : BarGauge.BarGaugeConfig) (v w : ℚ) :
    (ArcGauge.value_to_angle_deg_checked v config =
        some (ArcGauge.value_to_angle_deg v config) ↔
      config.max_value ≠ config.min_value) ∧
    (ArcGauge.value_to_angle_deg_checked v config = none ↔
      config.max_value = config.min_value) ∧
    (BarGauge.value_to_normalized_checked w bconfig =
        some (BarGauge.value_to_normalized w bconfig) ↔
      bconfig.max_value ≠ bconfig.min_value) ∧
    (BarGauge.value_to_normalized_checked w bconfig = none ↔
      bconfig.max_value = bconfig.min_value) := by
  constructor
  · by_cases h : config.max_value - config.min_value = 0
    · simp [ArcGauge.value_to_angle_deg_checked, pydiv, h, sub_eq_zero.mp h]
    · simp [ArcGauge.value_to_angle_deg_checked, pydiv, h, ArcGauge.value_to_angle_deg,
        sub_ne_zero.mp h]
  constructor
  · by_cases h : config.max_value - config.min_value = 0
    · simp [ArcGauge.value_to_angle_deg_checked, pydiv, h, sub_eq_zero.mp h]
    · simp [ArcGauge.value_to_angle_deg_checked, pydiv, h, sub_ne_zero.mp h]
  constructor
  · by_cases h : bconfig.max_value - bconfig.min_value = 0
    · simp [BarGauge.value_to_normalized_checked, pydiv, h, sub_eq_zero.mp h]
    · simp [BarGauge.value_to_normalized_checked, pydiv, h, BarGauge.value_to_normalized,
        sub_ne_zero.mp h]
  · by_cases h : bconfig.max_value - bconfig.min_value = 0
    · simp [BarGauge.value_to_normalized_checked, pydiv, h, sub_eq_zero.mp h]
    · simp [BarGauge.value_to_normalized_checked, pydiv, h, sub_ne_zero.mp h]

/-! ## Claim C4: major ticks, numeric labels and color zones -/

theorem arcZoneActive_iff (z : Option (ℚ × ℚ)) :
    ArcGauge.zoneActive z = true ↔ ∃ a b : ℚ, z = some (a, b) ∧ a < b := by
  cases z with
  | none => simp [ArcGauge.zoneActive]
  | some p =>
    cases p with
    | mk a b =>
      simp only [ArcGauge.zoneActive, decide_eq_true_eq, Option.some_inj]
      constructor
      · intro h; exact ⟨a, b, rfl, h⟩
      · rintro ⟨a', b', hab, hlt⟩
        cases hab
        exact hlt

theorem barZoneActive_iff (z : Option (ℚ × ℚ)) :
    BarGauge.zoneActive z = true ↔ ∃ a b : ℚ, z = some (a, b) ∧ a < b := by
  cases z with
  | none => simp [BarGauge.zoneActive]
  | some p =>
    cases p with
    | mk a b =>
      simp only [BarGauge.zoneActive, decide_eq_true_eq, Option.some_inj]
      constructor
      · intro h; exact ⟨a, b, rfl, h⟩
      · rintro ⟨a', b', hab, hlt⟩
        cases hab
        exact hlt

theorem tickValues_pairwise_lt (v0 B step : ℚ) (hstep : 0 < step) :
    (tickValues v0 B step).Pairwise (· < ·) := by
  rw [tickValues_eq_map v0 B step hstep]
  refine List.Pairwise.map _ ?_ (List.pairwise_lt_range _)
  intro a b hab
  have : (a : ℚ) < (b : ℚ) := by exact_mod_cast hab
  nlinarith

/-- C4: with `min_value < max_value` and `0 < major_tick_interval`, both the
arc gauge (`create_gauge`) and the bar gauge (`create_bar_gauge`) create one
major tick and one numeric label exactly at the values
`min_value + k * major_tick_interval` not exceeding `max_value + 0.001`
(the label text being the value, printed without decimals when whole), and one
color-zone band exactly for each configured zone whose `(start, end)` pair has
`start < end`. -/
theorem gauge_ticks_labels_zones (config : ArcGauge.GaugeConfig)
    (bconfig : BarGauge.BarGaugeConfig) (oneDecimal zeroDecimal : ℚ → String)
    (harc : config.min_value < config.max_value)
    (harcStep : 0 < config.major_tick_interval)
    (hbar : bconfig.min_value < bconfig.max_value)
    (hbarStep : 0 < bconfig.major_tick_interval) :
    (∀ x : ℚ, x ∈ ArcGauge.major_tick_values config ↔
      ∃ k : ℕ, x = config.min_value + (k : ℚ) * config.major_tick_interval ∧
        x ≤ config.max_value + 1/1000) ∧
    (ArcGauge.major_tick_values config).Pairwise (· < ·) ∧
    ArcGauge.number_texts oneDecimal config =
      (ArcGauge.major_tick_values config).map (ArcGauge.number_text oneDecimal) ∧
    (∀ n : ℤ, ArcGauge.number_text oneDecimal (n : ℚ) = toString n) ∧
    ("Zone_Normal" ∈ ArcGauge.zone_band_names config ↔
      ∃ a b : ℚ, config.zone_normal = some (a, b) ∧ a < b) ∧
    ("Zone_Warning" ∈ ArcGauge.zone_band_names config ↔
      ∃ a b : ℚ, config.zone_warning = some (a, b) ∧ a < b) ∧
    ("Zone_Danger" ∈ ArcGauge.zone_band_names config ↔
      ∃ a b : ℚ, config.zone_danger = some (a, b) ∧ a < b) ∧
    (∀ x : ℚ, x ∈ BarGauge.major_tick_values bconfig ↔
      ∃ k : ℕ, x = bconfig.min_value + (k : ℚ) * bconfig.major_tick_interval ∧
        x ≤ bconfig.max_value + 1/1000) ∧
    (BarGauge.major_tick_values bconfig).Pairwise (· < ·) ∧
    BarGauge.number_texts zeroDecimal bconfig =
      (BarGauge.major_tick_values bconfig).map (BarGauge.number_text zeroDecimal) ∧
    (∀ n : ℤ, BarGauge.number_text zeroDecimal (n : ℚ) = toString n) ∧
    ("Zone_Normal" ∈ BarGauge.zone_band_names bconfig ↔
      ∃ a b : ℚ, bconfig.zone_normal = some (a, b) ∧ a < b) ∧
    ("Zone_Warning" ∈ BarGauge.zone_band_names bconfig ↔
      ∃ a b : ℚ, bconfig.zone_warning = some (a, b) ∧ a < b) ∧
    ("Zone_Danger" ∈ BarGauge.zone_band_names bconfig ↔
      ∃ a b : ℚ, bconfig.zone_danger = some (a, b) ∧ a < b) := by
  refine ⟨fun x => mem_tickValues _ _ _ harcStep x, tickValues_pairwise_lt _ _ _ harcStep,
    rfl, ?_, ?_, ?_, ?_,
    fun x => mem_tickValues _ _ _ hbarStep x, tickValues_pairwise_lt _ _ _ hbarStep,
    rfl, ?_, ?_, ?_, ?_⟩
  · intro n
    simp [ArcGauge.number_text, pyIsWhole, Rat.den_intCast, Rat.num_intCast]
  · rw [← arcZoneActive_iff]
    unfold ArcGauge.zone_band_names
    by_cases h1 : ArcGauge.zoneActive config.zone_normal <;>
      by_cases h2 : ArcGauge.zoneActive config.zone_warning <;>
        by_cases h3 : ArcGauge.zoneActive config.zone_danger <;>
          simp [h1, h2, h3]
  · rw [← arcZoneActive_iff]
    unfold ArcGauge.zone_band_names
    by_cases h1 : ArcGauge.zoneActive config.zone_normal <;>
      by_cases h2 : ArcGauge.zoneActive config.zone_warning <;>
        by_cases h3 : ArcGauge.zoneActive config.zone_danger <;>
          simp [h1, h2, h3]
  · rw [← arcZoneActive_iff]
    unfold ArcGauge.zone_band_names
    by_cases h1 : ArcGauge.zoneActive config.zone_normal <;>
      by_cases h2 : ArcGauge.zoneActive config.zone_warning <;>
        by_cases h3 : ArcGauge.zoneActive config.zone_danger <;>
          simp [h1, h2, h3]
  · intro n
    simp [BarGauge.number_text, pyIsWhole, Rat.den_intCast, Rat.num_intCast]
  · rw [← barZoneActive_iff]
    unfold BarGauge.zone_band_names
    by_cases h1 : BarGauge.zoneActive bconfig.zone_normal <;>
      by_cases h2 : BarGauge.zoneActive bconfig.zone_warning <;>
        by_cases h3 : BarGauge.zoneActive bconfig.zone_danger <;>
          simp [h1, h2, h3]
  · rw [← barZoneActive_iff]
    unfold BarGauge.zone_band_names
    by_cases h1 : BarGauge.zoneActive bconfig.zone_normal <;>
      by_cases h2 : BarGauge.zoneActive bconfig.zone_warning <;>
        by_cases h3 : BarGauge.zoneActive bconfig.zone_danger <;>
          simp [h1, h2, h3]
  · rw [← barZoneActive_iff]
    unfold BarGauge.zone_band_names
    by_cases h1 : BarGauge.zoneActive bconfig.zone_normal <;>
      by_cases h2 : BarGauge.zoneActive bconfig.zone_warning <;>
        by_cases h3 : BarGauge.zoneActive bconfig.zone_danger <;>
          simp [h1, h2, h3]

/-- C4 witness: the theorem applied to the default configurations of the two scripts
(first membership conjunct shown). -/
theorem gauge_ticks_labels_zones_witness :
    ArcGauge.defaultConfig.min_value < ArcGauge.defaultConfig.max_value ∧
    0 < ArcGauge.defaultConfig.major_tick_interval ∧
    BarGauge.defaultConfig.min_value < BarGauge.defaultConfig.max_value ∧
    0 < BarGauge.defaultConfig.major_tick_interval ∧
    ∀ x : ℚ, x ∈ ArcGauge.major_tick_values ArcGauge.defaultConfig ↔
      ∃ k : ℕ,
        x = ArcGauge.defaultConfig.min_value +
          (k : ℚ) * ArcGauge.defaultConfig.major_tick_interval ∧
        x ≤ ArcGauge.defaultConfig.max_value + 1/1000 :=
  ⟨by decide, by decide, by decide, by decide,
    (gauge_ticks_labels_zones ArcGauge.defaultConfig BarGauge.defaultConfig
      (fun _ => "") (fun _ => "") (by decide) (by decide) (by decide) (by decide)).1⟩

/-! ## Claim C10: the minor-tick skip guard -/

/-- Evaluation of the Python `%` at a positive multiple of the divisor unit:
`(j * minor) % (m * minor) = (j % m) * minor` for `0 < minor` and `0 < m`. -/
theorem pymod_mul_of_pos (minor : ℚ) (hminor : 0 < minor) (m j : ℕ) (hm : 0 < m) :
    pymod ((j : ℚ) * minor) ((m : ℚ) * minor) = ((j % m : ℕ) : ℚ) * minor := by
  have hm' : (0 : ℚ) < (m : ℚ) := by exact_mod_cast hm
  have hne : minor ≠ 0 := ne_of_gt hminor
  have hdiv : ((j : ℚ) * minor) / ((m : ℚ) * minor) = (j : ℚ) / (m : ℚ) :=
    mul_div_mul_right _ _ hne
  have hmodN : m * (j / m) + j % m = j := Nat.div_add_mod j m
  have hcast : (m : ℚ) * ((j / m : ℕ) : ℚ) + ((j % m : ℕ) : ℚ) = (j : ℚ) := by
    exact_mod_cast congrArg (Nat.cast : ℕ → ℚ) hmodN
  have hlt : j < (j / m + 1) * m := by
    calc j = m * (j / m) + j % m := (Nat.div_add_mod j m).symm
      _ < m * (j / m) + m := Nat.add_lt_add_left (Nat.mod_lt j hm) _
      _ = (j / m + 1) * m := by ring
  have hfloor : ⌊(j : ℚ) / (m : ℚ)⌋ = ((j / m : ℕ) : ℤ) := by
    rw [Int.floor_eq_iff]
    constructor
    · rw [le_div_iff₀ hm']
      exact_mod_cast Nat.div_mul_le_self j m
    · rw [div_lt_iff₀ hm']
      push_cast
      exact_mod_cast hlt
  unfold pymod
  rw [hdiv, hfloor, Int.cast_natCast]
  have hdiff : (j : ℚ) - (m : ℚ) * ((j / m : ℕ) : ℚ) = ((j % m : ℕ) : ℚ) := by
    linarith
  linear_combination minor * hdiff

/-- Core equivalence behind the minor-tick skip guard, under exact arithmetic:
with `major = m * minor`, `0 < m` and `0.001 < minor`, the guard
`abs((value - min) % major) > 0.001` is `false` at `value = min + j * minor`
iff `j * minor` is a whole multiple of `major`. -/
theorem minor_guard_core (minv minor : ℚ) (m j : ℕ) (hm : 0 < m)
    (hminor : 1/1000 < minor) :
    (decide (1/1000 < |pymod ((minv + (j : ℚ) * minor) - minv) ((m : ℚ) * minor)|) = false ↔
      ∃ k : ℕ, (j : ℚ) * minor = (k : ℚ) * ((m : ℚ) * minor)) := by
  have hminor0 : (0 : ℚ) < minor := lt_trans (by norm_num) hminor
  have h0 : (minv + (j : ℚ) * minor) - minv = (j : ℚ) * minor := by ring
  rw [h0, pymod_mul_of_pos minor hminor0 m j hm]
  have hr : (0 : ℚ) ≤ ((j % m : ℕ) : ℚ) * minor := by positivity
  rw [abs_of_nonneg hr, decide_eq_false_iff_not, not_lt]
  constructor
  · intro hle
    have hr0 : j % m = 0 := by
      by_contra hne
      have h1 : 1 ≤ j % m := Nat.one_le_iff_ne_zero.mpr hne
      have h1' : (1 : ℚ) ≤ ((j % m : ℕ) : ℚ) := by exact_mod_cast h1
      nlinarith
    refine ⟨j / m, ?_⟩
    have hmod := Nat.div_add_mod j m
    rw [hr0, Nat.add_zero] at hmod
    have : ((m : ℚ)) * ((j / m : ℕ) : ℚ) = (j : ℚ) := by
      exact_mod_cast congrArg (Nat.cast : ℕ → ℚ) hmod
    nlinarith
  · rintro ⟨k, hk⟩
    have hja : (j : ℚ) = (k : ℚ) * (m : ℚ) := by
      have := mul_right_cancel₀ (ne_of_gt hminor0) (by linarith [hk] : (j : ℚ) * minor = ((k : ℚ) * (m : ℚ)) * minor)
      exact this
    have hj : j = k * m := by exact_mod_cast hja
    rw [hj, Nat.mul_mod_left]
    norm_num

/-- The claim of C10 for the arc-gauge script, as stated: whenever
`minor_tick_interval > 0` exactly divides `major_tick_interval`, the skip
guard of the minor-tick loop is false exactly at values of the form
`min_value + k * major_tick_interval` among the values the loop visits. -/
def minorGuardClaimArc (config : ArcGauge.GaugeConfig) : Prop :=
  0 < config.minor_tick_interval →
  (∃ m : ℕ, 0 < m ∧
    config.major_tick_interval = (m : ℚ) * config.minor_tick_interval) →
  ∀ j : ℕ,
    config.min_value + (j : ℚ) * config.minor_tick_interval ≤ config.max_value + 1/1000 →
    (ArcGauge.minor_guard config
        (config.min_value + (j : ℚ) * config.minor_tick_interval) = false ↔
      ∃ k : ℕ, config.min_value + (j : ℚ) * config.minor_tick_interval =
        config.min_value + (k : ℚ) * config.major_tick_interval)

/-- The claim of C10 for the bar-gauge script. -/
def minorGuardClaimBar (config : BarGauge.BarGaugeConfig) : Prop :=
  0 < config.minor_tick_interval →
  (∃ m : ℕ, 0 < m ∧
    config.major_tick_interval = (m : ℚ) * config.minor_tick_interval) →
  ∀ j : ℕ,
    config.min_value + (j : ℚ) * config.minor_tick_interval ≤ config.max_value + 1/1000 →
    (BarGauge.minor_guard config
        (config.min_value + (j : ℚ) * config.minor_tick_interval) = false ↔
      ∃ k : ℕ, config.min_value + (j : ℚ) * config.minor_tick_interval =
        config.min_value + (k : ℚ) * config.major_tick_interval)

/-- A configuration witnessing the failure of C10 as stated: `min = 0`,
`max = 0.001`, `major_tick_interval = 0.001`, `minor_tick_interval = 0.0005`
(so the minor interval is positive and exactly divides the major one, but the
loop value `0.0005` also falls inside the `0.001` tolerance). -/
def tinyIntervalConfig : ArcGauge.GaugeConfig :=
  ⟨0, 1/1000, 1/1000, 1/2000, 270, 225, none, none, none⟩

/-- C10 counterexample: the claimed equivalence fails on the code for
`tinyIntervalConfig` at the second loop value `0.0005`: the guard is false
there, yet `0.0005` is not a multiple of the major interval `0.001`. -/
theorem minor_guard_claim_false :
    ¬ ((∀ config : ArcGauge.GaugeConfig, minorGuardClaimArc config) ∧
      (∀ bconfig : BarGauge.BarGaugeConfig, minorGuardClaimBar bconfig)) := by
  rintro ⟨hA, -⟩
  have hiff := hA tinyIntervalConfig (by norm_num [tinyIntervalConfig])
    ⟨2, by norm_num, by norm_num [tinyIntervalConfig]⟩ 1 (by norm_num [tinyIntervalConfig])
  have hguard : ArcGauge.minor_guard tinyIntervalConfig
      (tinyIntervalConfig.min_value + (1 : ℚ) * tinyIntervalConfig.minor_tick_interval) =
        false := by
    simp only [ArcGauge.minor_guard, decide_eq_false_iff_not, not_lt, tinyIntervalConfig]
    norm_num [pymod]
    rw [abs_of_pos] <;> norm_num
  obtain ⟨k, hk⟩ := hiff.mp hguard
  have hk2 : ((2 * k : ℕ) : ℚ) = 1 := by
    have : (1 : ℚ) * (1/2000) = (k : ℚ) * (1/1000) := by
      simpa [tinyIntervalConfig] using hk
    push_cast
    linarith
  have : 2 * k = 1 := by exact_mod_cast hk2
  omega

/-- C10, amended: in both gauge scripts, when `minor_tick_interval` exceeds
the `0.001` tolerance and exactly divides `major_tick_interval`, the
skip guard of the minor-tick loop is false exactly at whole multiples of
`major_tick_interval` above `min_value` (so minor ticks never coincide with
major ticks); the extra lower bound on the interval is forced by the
counterexample `tinyIntervalConfig`. -/
theorem minor_guard_skips_major_positions (config : ArcGauge.GaugeConfig)
    (bconfig : BarGauge.BarGaugeConfig)
    (h1 : 1/1000 < config.minor_tick_interval)
    (h2 : ∃ m : ℕ, 0 < m ∧
      config.major_tick_interval = (m : ℚ) * config.minor_tick_interval)
    (h3 : 1/1000 < bconfig.minor_tick_interval)
    (h4 : ∃ m : ℕ, 0 < m ∧
      bconfig.major_tick_interval = (m : ℚ) * bconfig.minor_tick_interval) :
    (∀ j : ℕ,
      ArcGauge.minor_guard config
          (config.min_value + (j : ℚ) * config.minor_tick_interval) = false ↔
        ∃ k : ℕ, (j : ℚ) * config.minor_tick_interval =
          (k : ℚ) * config.major_tick_interval) ∧
    (∀ j : ℕ,
      BarGauge.minor_guard bconfig
          (bconfig.min_value + (j : ℚ) * bconfig.minor_tick_interval) = false ↔
        ∃ k : ℕ, (j : ℚ) * bconfig.minor_tick_interval =
          (k : ℚ) * bconfig.major_tick_interval) := by
  obtain ⟨m, hm, hmaj⟩ := h2
  obtain ⟨m', hm', hmaj'⟩ := h4
  constructor
  · intro j
    unfold ArcGauge.minor_guard
    rw [hmaj]
    exact minor_guard_core config.min_value config.minor_tick_interval m j hm h1
  · intro j
    unfold BarGauge.minor_guard
    rw [hmaj']
    exact minor_guard_core bconfig.min_value bconfig.minor_tick_interval m' j hm' h3

/-- C10 witness: the amended theorem applied to the default
configurations (`minor = 20`, `major = 100 = 5 * 20`), shown at `j = 7`. -/
theorem minor_guard_skips_major_positions_witness :
    (1/1000 : ℚ) < ArcGauge.defaultConfig.minor_tick_interval ∧
    ArcGauge.defaultConfig.major_tick_interval =
      ((5 : ℕ) : ℚ) * ArcGauge.defaultConfig.minor_tick_interval ∧
    (1/1000 : ℚ) < BarGauge.defaultConfig.minor_tick_interval ∧
    BarGauge.defaultConfig.major_tick_interval =
      ((5 : ℕ) : ℚ) * BarGauge.defaultConfig.minor_tick_interval ∧
    (ArcGauge.minor_guard ArcGauge.defaultConfig
        (ArcGauge.defaultConfig.min_value +
          ((7 : ℕ) : ℚ) * ArcGauge.defaultConfig.minor_tick_interval) = false ↔
      ∃ k : ℕ, ((7 : ℕ) : ℚ) * ArcGauge.defaultConfig.minor_tick_interval =
        (k : ℚ) * ArcGauge.defaultConfig.major_tick_interval) :=
  ⟨by norm_num [ArcGauge.defaultConfig], by norm_num [ArcGauge.defaultConfig],
    by norm_num [BarGauge.defaultConfig], by norm_num [BarGauge.defaultConfig],
    (minor_guard_skips_major_positions ArcGauge.defaultConfig BarGauge.defaultConfig
      (by norm_num [ArcGauge.defaultConfig])
      ⟨5, by norm_num, by norm_num [ArcGauge.defaultConfig]⟩
      (by norm_num [BarGauge.defaultConfig])
      ⟨5, by norm_num, by norm_num [BarGauge.defaultConfig]⟩).1 7⟩

/-! ## RCS_Primary_Loop_Blender.py -/

namespace RCS

/-- A point in Blender world space (feet, `Config.SCALE = 1.0`). -/
abbrev Vec3 := ℚ × ℚ × ℚ

/-- Constant `Config.RV_RADIUS`. -/
def RV_RADIUS : ℚ := 7.2

/-- Constant `Config.HOT_LEG_RADIUS`. -/
def HOT_LEG_RADIUS : ℚ := 1.21

/-- Constant `Config.COLD_LEG_RADIUS`. -/
def COLD_LEG_RADIUS : ℚ := 1.15

/-- Constant `Config.CROSSOVER_RADIUS`. -/
def CROSSOVER_RADIUS : ℚ := 1.29

/-- Constant `Config.SG_LOWER_RADIUS`. -/
def SG_LOWER_RADIUS : ℚ := 5.6

/-- Constant `Config.LOOP_RADIUS` (distance from RV center to SG center). -/
def LOOP_RADIUS : ℚ := 35.0

/-- Constant `Config.RV_NOZZLE_HEIGHT`. -/
def RV_NOZZLE_HEIGHT : ℚ := 10.0

/-- Constant `Config.SG_INLET_HEIGHT`. -/
def SG_INLET_HEIGHT : ℚ := 12.0

/-- Constant `Config.RCP_HEIGHT`. -/
def RCP_HEIGHT : ℚ := 8.0

/-- Constant `Config.RCP_BODY_HEIGHT`. -/
def RCP_BODY_HEIGHT : ℚ := 8.0

/-- The loop angles of `main`: `angle = math.radians(45 + i * 90)` for
`i in range(4)`, kept in degrees. -/
def main_loop_angles_deg : List ℚ := (List.range 4).map (fun i : ℕ => 45 + (i : ℚ) * 90)

/-- A straight pipe as produced by `create_hot_leg` / `create_cold_leg` /
`create_crossover_leg`: the underlying Blender cylinder is created at
`center` (the midpoint of the two endpoints computed in the code) with depth
`sqrt(dx*dx+dy*dy+dz*dz)` and is then rotated so that its axis (initially the
z-axis) points along `delta = (dx, dy, dz)`.  Its axis therefore runs from
`center - delta/2` to `center + delta/2`; the irrational length and the
normalisation cancel, so `delta` is recorded exactly. -/
structure Pipe where
  name : String
  radius : ℚ
  center : Vec3
  delta : Vec3

/-- First endpoint of the axis of the cylinder of a pipe. -/
def pipeStart (p : Pipe) : Vec3 := p.center - (1/2 : ℚ) • p.delta

/-- Second endpoint of the axis of the cylinder of a pipe. -/
def pipeEnd (p : Pipe) : Vec3 := p.center + (1/2 : ℚ) • p.delta

/-- Point `x` lies on the segment from `a` to `b`. -/
def onSegment (a b x : Vec3) : Prop := ∃ t : ℚ, 0 ≤ t ∧ t ≤ 1 ∧ x = a + t • (b - a)

/-- Function `create_hot_leg(loop_number, angle)`, parametrized by
`c = cos(angle)`, `s = sin(angle)` (the only use the code makes of the
angle). -/
def create_hot_leg (loop_number : ℕ) (c s : ℚ) : Pipe :=
  let rv_x := c * (RV_RADIUS + 2)
  let rv_y := s * (RV_RADIUS + 2)
  let rv_z := RV_NOZZLE_HEIGHT + 2
  let sg_x := c * LOOP_RADIUS
  let sg_y := s * LOOP_RADIUS
  let sg_z := SG_INLET_HEIGHT
  let dx := sg_x - rv_x
  let dy := sg_y - rv_y
  let dz := sg_z - rv_z
  ⟨"HotLeg_" ++ toString loop_number, HOT_LEG_RADIUS,
    ((rv_x + sg_x) / 2, (rv_y + sg_y) / 2, (rv_z + sg_z) / 2), (dx, dy, dz)⟩

/-- Function `create_cold_leg(loop_number, angle, rcp_pos)`, parametrized by
`ci = cos(angle + radians(45))`, `si = sin(angle + radians(45))` (the code
computes `inlet_angle = angle + math.radians(45)` and only uses its cosine
and sine). -/
def create_cold_leg (loop_number : ℕ) (ci si : ℚ) (rcp_pos : Vec3) : Pipe :=
  let rcp_x := rcp_pos.1
  let rcp_y := rcp_pos.2.1
  let rcp_z := rcp_pos.2.2 + RCP_BODY_HEIGHT / 2
  let rv_x := ci * (RV_RADIUS + 2)
  let rv_y := si * (RV_RADIUS + 2)
  let rv_z := RV_NOZZLE_HEIGHT
  let dx := rv_x - rcp_x
  let dy := rv_y - rcp_y
  let dz := rv_z - rcp_z
  ⟨"ColdLeg_" ++ toString loop_number, COLD_LEG_RADIUS,
    ((rcp_x + rv_x) / 2, (rcp_y + rv_y) / 2, (rcp_z + rv_z) / 2), (dx, dy, dz)⟩

/-- Function `create_crossover_leg(loop_number, angle, rcp_pos)`, parametrized by
`c = cos(angle)`, `s = sin(angle)`. -/
def create_crossover_leg (loop_number : ℕ) (c s : ℚ) (rcp_pos : Vec3) : Pipe :=
  let sg_x := c * LOOP_RADIUS
  let sg_y := s * LOOP_RADIUS
  let sg_z := SG_LOWER_RADIUS + 2
  let rcp_x := rcp_pos.1
  let rcp_y := rcp_pos.2.1
  let rcp_z := rcp_pos.2.2
  let dx := rcp_x - sg_x
  let dy := rcp_y - sg_y
  let dz := rcp_z - sg_z
  ⟨"CrossoverLeg_" ++ toString loop_number, CROSSOVER_RADIUS,
    ((sg_x + rcp_x) / 2, (sg_y + rcp_y) / 2, (sg_z + rcp_z) / 2), (dx, dy, dz)⟩

/-- The `(x, y)` placement of the steam generator of a loop from
`create_steam_generator`: `(cos(angle) * LOOP_RADIUS, sin(angle) * LOOP_RADIUS)`. -/
def sg_position (c s : ℚ) : ℚ × ℚ := (c * LOOP_RADIUS, s * LOOP_RADIUS)

/-- The `position_x/y/z` custom properties stored on the RCP of a loop by
`create_rcp`, parametrized by `cp = cos(angle + radians(25))`,
`sp = sin(angle + radians(25))` (the code computes
`rcp_angle = angle + math.radians(25)`, `rcp_radius = LOOP_RADIUS * 0.6`,
`base_z = RCP_HEIGHT`). -/
def rcp_stored_position (cp sp : ℚ) : Vec3 :=
  (cp * (LOOP_RADIUS * 0.6), sp * (LOOP_RADIUS * 0.6), RCP_HEIGHT)

/-- Center of the RV outlet nozzle of a loop from `create_reactor_vessel`:
`(cos(angle) * RV_RADIUS + cos(angle) * 1.5, ..., RV_NOZZLE_HEIGHT + 2)`,
a radial cylinder of length 3 (rotated by euler `(0, pi/2, angle)`, so its
axis points along `(cos angle, sin angle, 0)`). -/
def rv_outlet_nozzle_center (c s : ℚ) : Vec3 :=
  (c * RV_RADIUS + c * 1.5, s * RV_RADIUS + s * 1.5, RV_NOZZLE_HEIGHT + 2)

/-- Inner axis endpoint of the RV outlet nozzle (`center - 1.5 * axis`). -/
def rv_outlet_nozzle_inner (c s : ℚ) : Vec3 :=
  rv_outlet_nozzle_center c s - (3/2 : ℚ) • ((c, s, 0) : Vec3)

/-- Outer axis endpoint of the RV outlet nozzle (`center + 1.5 * axis`). -/
def rv_outlet_nozzle_outer (c s : ℚ) : Vec3 :=
  rv_outlet_nozzle_center c s + (3/2 : ℚ) • ((c, s, 0) : Vec3)

/-- Center of the RV inlet nozzle of a loop from `create_reactor_vessel`,
parametrized by the cosine/sine of `inlet_angle = angle + radians(45)`; a
radial cylinder of length 3 at height `RV_NOZZLE_HEIGHT`. -/
def rv_inlet_nozzle_center (ci si : ℚ) : Vec3 :=
  (ci * RV_RADIUS + ci * 1.5, si * RV_RADIUS + si * 1.5, RV_NOZZLE_HEIGHT)

/-- Inner axis endpoint of the RV inlet nozzle. -/
def rv_inlet_nozzle_inner (ci si : ℚ) : Vec3 :=
  rv_inlet_nozzle_center ci si - (3/2 : ℚ) • ((ci, si, 0) : Vec3)

/-- Outer axis endpoint of the RV inlet nozzle. -/
def rv_inlet_nozzle_outer (ci si : ℚ) : Vec3 :=
  rv_inlet_nozzle_center ci si + (3/2 : ℚ) • ((ci, si, 0) : Vec3)

/-- The mesh primitive kinds offered by the helpers of the script
(`create_cylinder`, `create_sphere`, `create_cone`, `create_torus`). -/
inductive PrimKind where
  | cylinder : PrimKind
  | sphere : PrimKind
  | cone : PrimKind
  | torus : PrimKind
deriving DecidableEq

/-- The primitives instantiated by `create_steam_generator`, in source order:
lower shell (cylinder), transition (cone), upper shell (cylinder), top dome
(sphere), bottom head (sphere). -/
def steam_generator_prims : List PrimKind :=
  [PrimKind.cylinder, PrimKind.cone, PrimKind.cylinder, PrimKind.sphere, PrimKind.sphere]

/-- The primitives instantiated by `create_rcp`: casing, motor and flywheel
cylinders. -/
def rcp_prims : List PrimKind := [PrimKind.cylinder, PrimKind.cylinder, PrimKind.cylinder]

/-- The primitive instantiated by `create_hot_leg`. -/
def hot_leg_prims : List PrimKind := [PrimKind.cylinder]

/-- The primitive instantiated by `create_crossover_leg`. -/
def crossover_leg_prims : List PrimKind := [PrimKind.cylinder]

/-- The primitive instantiated by `create_cold_leg`. -/
def cold_leg_prims : List PrimKind := [PrimKind.cylinder]

/-- The primitives instantiated for one coolant loop by `main` (steam
generator and RCP from the components loop, then hot, crossover and cold legs
from the piping loop).  Note that `create_torus` ("for pipe bends",
lines 185-199) is defined in the script but never called. -/
def loop_prims : List PrimKind :=
  steam_generator_prims ++ rcp_prims ++ hot_leg_prims ++ crossover_leg_prims ++ cold_leg_prims

end RCS

/-! ## Claim C2: the four-loop chain geometry -/

/-- C2 counterexample: a coolant loop is not an assembly of cylinder, sphere
and torus primitives: no torus is ever instantiated (the `create_torus`
helper is dead code), while the transition section of the steam generator is a
cone. -/
theorem rcs_loop_not_torus_assembly :
    RCS.loop_prims.toFinset ≠
      ({RCS.PrimKind.cylinder, RCS.PrimKind.sphere, RCS.PrimKind.torus} :
        Finset RCS.PrimKind) ∧
    RCS.PrimKind.torus ∉ RCS.loop_prims ∧ RCS.PrimKind.cone ∈ RCS.loop_prims := by
  decide

/-- C2, amended: the script models each of the four coolant loops (placed at
angles `45° + i * 90°`, `i = 0..3`) as assemblies of cylinder, cone and
sphere primitives (the torus helper intended for pipe bends is defined but
never invoked) forming the chain reactor vessel → hot leg → steam generator →
crossover leg → pump → cold leg → vessel: the hot-leg cylinder runs from a
point on the RV outlet nozzle axis to the SG inlet position, the
crossover-leg cylinder from the SG bottom to the RCP suction position of the loop
(the stored RCP position), and the cold-leg cylinder from the RCP discharge
position (`RCP_BODY_HEIGHT / 2` above the stored position) to a point on the
RV inlet nozzle axis.  Stated for arbitrary values `c, s / ci, si / cp, sp`
of the cosine and sine of the loop angle, the inlet angle (`angle + 45°`) and
the RCP angle (`angle + 25°`). -/
theorem rcs_loop_chain_geometry (n : ℕ) (c s ci si cp sp : ℚ) :
    RCS.loop_prims.toFinset =
      ({RCS.PrimKind.cylinder, RCS.PrimKind.cone, RCS.PrimKind.sphere} :
        Finset RCS.PrimKind) ∧
    RCS.main_loop_angles_deg = [45, 135, 225, 315] ∧
    RCS.onSegment (RCS.rv_outlet_nozzle_inner c s) (RCS.rv_outlet_nozzle_outer c s)
      (RCS.pipeStart (RCS.create_hot_leg n c s)) ∧
    RCS.pipeEnd (RCS.create_hot_leg n c s) =
      ((RCS.sg_position c s).1, (RCS.sg_position c s).2, RCS.SG_INLET_HEIGHT) ∧
    RCS.pipeStart (RCS.create_crossover_leg n c s (RCS.rcp_stored_position cp sp)) =
      ((RCS.sg_position c s).1, (RCS.sg_position c s).2, RCS.SG_LOWER_RADIUS + 2) ∧
    RCS.pipeEnd (RCS.create_crossover_leg n c s (RCS.rcp_stored_position cp sp)) =
      RCS.rcp_stored_position cp sp ∧
    RCS.pipeStart (RCS.create_cold_leg n ci si (RCS.rcp_stored_position cp sp)) =
      RCS.rcp_stored_position cp sp + ((0 : ℚ), (0 : ℚ), RCS.RCP_BODY_HEIGHT / 2) ∧
    RCS.onSegment (RCS.rv_inlet_nozzle_inner ci si) (RCS.rv_inlet_nozzle_outer ci si)
      (RCS.pipeEnd (RCS.create_cold_leg n ci si (RCS.rcp_stored_position cp sp))) := by
  refine ⟨by decide, by norm_num [RCS.main_loop_angles_deg, List.range_succ],
    ⟨2/3, by norm_num, by norm_num, ?_⟩, ?_, ?_, ?_, ?_,
    ⟨2/3, by norm_num, by norm_num, ?_⟩⟩ <;>
    simp only [RCS.pipeStart, RCS.pipeEnd, RCS.create_hot_leg, RCS.create_cold_leg,
      RCS.create_crossover_leg, RCS.sg_position, RCS.rcp_stored_position,
      RCS.rv_outlet_nozzle_inner, RCS.rv_outlet_nozzle_outer, RCS.rv_outlet_nozzle_center,
      RCS.rv_inlet_nozzle_inner, RCS.rv_inlet_nozzle_outer, RCS.rv_inlet_nozzle_center,
      Prod.smul_mk, Prod.mk_add_mk, Prod.mk_sub_mk, Prod.mk.injEq, smul_eq_mul] <;>
    refine ⟨by ring, by ring, by ring⟩

/-! ## create_reactor_panel.py -/

namespace Panel

/-- Constant `PANEL_WIDTH` (Blender units, 1 unit = 100 px). -/
def PANEL_WIDTH : ℚ := 19.20

/-- Constant `PANEL_HEIGHT`. -/
def PANEL_HEIGHT : ℚ := 10.80

/-- Constant `BEZEL_DEPTH` (how far bezels protrude from the panel). -/
def BEZEL_DEPTH : ℚ := 0.08

/-- Constant `BEZEL_BEVEL` (bevel radius on bezel edges). -/
def BEZEL_BEVEL : ℚ := 0.02

/-- Constant `RECESS_DEPTH` (how deep display cutouts are recessed). -/
def RECESS_DEPTH : ℚ := 0.06

/-- A box mesh as produced by `create_box`: the Blender cube is created at
`location` `(cx, cy, cz)` and scaled to `(sx, sy, sz)` (scale then applied),
so it occupies `[cx - sx/2, cx + sx/2] × [cy - sy/2, cy + sy/2] ×
[cz - sz/2, cz + sz/2]`.  Material and parent are irrelevant to the claims
and omitted. -/
structure Box where
  name : String
  cx : ℚ
  cy : ℚ
  cz : ℚ
  sx : ℚ
  sy : ℚ
  sz : ℚ
  bevel_width : ℚ

/-- Function `create_box(name, x, y, z, width, height, depth, ..., bevel_width)`:
the cube is placed at `(x + width/2, y + height/2, z + depth/2)` and scaled
to `(width, height, depth)`. -/
def create_box (name : String) (x y z width height depth bevel_width : ℚ) : Box :=
  ⟨name, x + width / 2, y + height / 2, z + depth / 2, width, height, depth, bevel_width⟩

/-- The x-extent of a box. -/
def Box.intervalX (b : Box) : Set ℚ := Set.Icc (b.cx - b.sx / 2) (b.cx + b.sx / 2)

/-- The y-extent of a box. -/
def Box.intervalY (b : Box) : Set ℚ := Set.Icc (b.cy - b.sy / 2) (b.cy + b.sy / 2)

/-- The z-extent of a box. -/
def Box.intervalZ (b : Box) : Set ℚ := Set.Icc (b.cz - b.sz / 2) (b.cz + b.sz / 2)

/-- Function `create_recessed_area(name, x, y, width, height)`: a box from
`z = -RECESS_DEPTH` up to the `z = 0` panel surface. -/
def create_recessed_area (name : String) (x y width height : ℚ) : Box :=
  create_box name x y (-RECESS_DEPTH) width height RECESS_DEPTH 0

/-- The local frame width constant of `create_bezel` (`frame_w = 0.04`). -/
def frame_w : ℚ := 0.04

/-- Function `create_bezel(name, x, y, width, height)`: four raised frame bars and the
recessed interior display box, in source order (top, bottom, left, right,
display). -/
def create_bezel (name : String) (x y width height : ℚ) : List Box :=
  [create_box (name ++ "_top") x (y + height - frame_w) 0 width frame_w BEZEL_DEPTH BEZEL_BEVEL,
    create_box (name ++ "_bot") x y 0 width frame_w BEZEL_DEPTH BEZEL_BEVEL,
    create_box (name ++ "_left") x y 0 frame_w height BEZEL_DEPTH BEZEL_BEVEL,
    create_box (name ++ "_right") (x + width - frame_w) y 0 frame_w height BEZEL_DEPTH
      BEZEL_BEVEL,
    create_recessed_area (name ++ "_display") (x + frame_w) (y + frame_w)
      (width - 2 * frame_w) (height - 2 * frame_w)]

/-- Function `anchor_to_panel(ax, ay, aw, ah)`: normalized Unity anchor coordinates
scaled to panel units. -/
def anchor_to_panel (ax ay aw ah : ℚ) : ℚ × ℚ × ℚ × ℚ :=
  (ax * PANEL_WIDTH, ay * PANEL_HEIGHT, aw * PANEL_WIDTH, ah * PANEL_HEIGHT)

/-- A Blender object as seen by the modifier-apply loop of `build_panel`:
its name, its `type` string, and the names of its modifiers. -/
structure BObj where
  name : String
  typ : String
  modifiers : List String

/-- One `bpy.ops.object.modifier_apply` call: the oracle `ok` says whether the
apply succeeds; a failure raises (models "Some modifiers may not apply
cleanly"). -/
def apply_modifier (ok : String → String → Bool) (objName modName : String) :
    Except Unit Unit :=
  if ok objName modName then Except.ok () else Except.error ()

/-- The inner modifier loop of `build_panel` for one object:
`for mod in obj.modifiers: try: modifier_apply(...) except: pass`.
Each attempt is recorded; the `except: pass` handler maps both outcomes of
`apply_modifier` to continuing with the next modifier. -/
def apply_mods (ok : String → String → Bool) (objName : String) :
    List String → Except Unit (List (String × String))
  | [] => Except.ok []
  | m :: ms =>
    match apply_modifier ok objName m with
    | Except.ok _ =>
      match apply_mods ok objName ms with
      | Except.ok rest => Except.ok ((objName, m) :: rest)
      | Except.error e => Except.error e
    | Except.error _ =>
      match apply_mods ok objName ms with
      | Except.ok rest => Except.ok ((objName, m) :: rest)
      | Except.error e => Except.error e

/-- The outer loop of `build_panel`:
`for obj in bpy.data.objects: if obj.type == "MESH" and obj.modifiers: ...`,
returning every attempted `(object, modifier)` application. -/
def build_panel_apply_modifiers (ok : String → String → Bool) :
    List BObj → Except Unit (List (String × String))
  | [] => Except.ok []
  | obj :: rest =>
    if obj.typ == "MESH" && !obj.modifiers.isEmpty then
      match apply_mods ok obj.name obj.modifiers with
      | Except.ok first =>
        match build_panel_apply_modifiers ok rest with
        | Except.ok others => Except.ok (first ++ others)
        | Except.error e => Except.error e
      | Except.error e => Except.error e
    else
      build_panel_apply_modifiers ok rest

/-- The complete enumeration of modifier applications the loop should attempt:
every modifier of every mesh object that has modifiers, in order. -/
def all_modifier_pairs (objs : List BObj) : List (String × String) :=
  (objs.filter (fun o => o.typ == "MESH" && !o.modifiers.isEmpty)).flatMap
    (fun o => o.modifiers.map (fun m => (o.name, m)))

end Panel

/-! ## Claim C5: modifier-apply failures are caught and ignored -/

theorem apply_mods_total (ok : String → String → Bool) (objName : String)
    (ms : List String) :
    Panel.apply_mods ok objName ms = Except.ok (ms.map (fun m => (objName, m))) := by
  induction ms with
  | nil => rfl
  | cons m ms ih =>
    unfold Panel.apply_mods
    cases hok : Panel.apply_modifier ok objName m <;> simp [ih]

/-- C5: during panel construction a failure while applying a bevel modifier to
any mesh object is caught and ignored: whatever set of `modifier_apply` calls
fails (the oracle `ok`), the loop of `build_panel` never propagates an
exception and attempts every modifier of every mesh object that has
modifiers, in order. -/
theorem build_panel_modifier_errors_ignored (ok : String → String → Bool)
    (objs : List Panel.BObj) :
    Panel.build_panel_apply_modifiers ok objs =
      Except.ok (Panel.all_modifier_pairs objs) := by
  induction objs with
  | nil => rfl
  | cons obj rest ih =>
    unfold Panel.build_panel_apply_modifiers Panel.all_modifier_pairs
    by_cases hc : (obj.typ == "MESH" && !obj.modifiers.isEmpty) = true
    · rw [if_pos hc, apply_mods_total, ih]
      unfold Panel.all_modifier_pairs
      simp [List.filter_cons, hc]
    · rw [if_neg hc, ih]
      unfold Panel.all_modifier_pairs
      simp [List.filter_cons, hc]

/-! ## Claim C7: bezel geometry -/

/-- C7: every bezel created by `create_bezel` is a raised frame around a
recessed display area: the four frame bars each span `z ∈ [0, BEZEL_DEPTH]`,
the interior display box spans `z ∈ [-RECESS_DEPTH, 0]`, its x/y rectangle is
`[x + frame_w, x + width - frame_w] × [y + frame_w, y + height - frame_w]`,
and that rectangle is contained in the outer rectangle of the frame
`[x, x + width] × [y, y + height]`. -/
theorem bezel_raised_frame_recessed_display (name : String) (x y width height : ℚ) :
    (Panel.create_bezel name x y width height).map Panel.Box.intervalZ =
      [Set.Icc 0 Panel.BEZEL_DEPTH, Set.Icc 0 Panel.BEZEL_DEPTH,
        Set.Icc 0 Panel.BEZEL_DEPTH, Set.Icc 0 Panel.BEZEL_DEPTH,
        Set.Icc (-Panel.RECESS_DEPTH) 0] ∧
    (Panel.create_bezel name x y width height).map Panel.Box.intervalX =
      [Set.Icc x (x + width), Set.Icc x (x + width), Set.Icc x (x + Panel.frame_w),
        Set.Icc (x + width - Panel.frame_w) (x + width),
        Set.Icc (x + Panel.frame_w) (x + width - Panel.frame_w)] ∧
    (Panel.create_bezel name x y width height).map Panel.Box.intervalY =
      [Set.Icc (y + height - Panel.frame_w) (y + height), Set.Icc y (y + Panel.frame_w),
        Set.Icc y (y + height), Set.Icc y (y + height),
        Set.Icc (y + Panel.frame_w) (y + height - Panel.frame_w)] ∧
    Set.Icc (x + Panel.frame_w) (x + width - Panel.frame_w) ⊆ Set.Icc x (x + width) ∧
    Set.Icc (y + Panel.frame_w) (y + height - Panel.frame_w) ⊆ Set.Icc y (y + height) := by
  refine ⟨?_, ?_, ?_, ?_, ?_⟩
  · simp only [Panel.create_bezel, Panel.create_recessed_area, Panel.create_box,
      Panel.Box.intervalZ, List.map_cons, List.map_nil]
    norm_num [Panel.BEZEL_DEPTH, Panel.RECESS_DEPTH]
  · simp only [Panel.create_bezel, Panel.create_recessed_area, Panel.create_box,
      Panel.Box.intervalX, List.map_cons, List.map_nil]
    refine congrArg₂ _ (by ring_nf) (congrArg₂ _ (by ring_nf)
      (congrArg₂ _ (by ring_nf) (congrArg₂ _ (by ring_nf)
        (congrArg₂ _ (by ring_nf) rfl))))
  · simp only [Panel.create_bezel, Panel.create_recessed_area, Panel.create_box,
      Panel.Box.intervalY, List.map_cons, List.map_nil]
    refine congrArg₂ _ (by ring_nf) (congrArg₂ _ (by ring_nf)
      (congrArg₂ _ (by ring_nf) (congrArg₂ _ (by ring_nf)
        (congrArg₂ _ (by ring_nf) rfl))))
  · exact Set.Icc_subset_Icc (by norm_num [Panel.frame_w]) (by norm_num [Panel.frame_w])
  · exact Set.Icc_subset_Icc (by norm_num [Panel.frame_w]) (by norm_num [Panel.frame_w])

/-! ## Claim C8: anchor_to_panel is linear -/

/-- C8: `anchor_to_panel` maps normalized anchor coordinates linearly to world
units: it returns `(ax * 19.20, ay * 10.80, aw * 19.20, ah * 10.80)`, is
additive in its arguments, and commutes with scalar multiplication. -/
theorem anchor_to_panel_linear (ax ay aw ah bx bY bw bh c : ℚ) :
    Panel.anchor_to_panel ax ay aw ah =
      (ax * (19.20 : ℚ), ay * (10.80 : ℚ), aw * (19.20 : ℚ), ah * (10.80 : ℚ)) ∧
    Panel.anchor_to_panel (ax + bx) (ay + bY) (aw + bw) (ah + bh) =
      Panel.anchor_to_panel ax ay aw ah + Panel.anchor_to_panel bx bY bw bh ∧
    Panel.anchor_to_panel (c * ax) (c * ay) (c * aw) (c * ah) =
      c • Panel.anchor_to_panel ax ay aw ah := by
  refine ⟨rfl, ?_, ?_⟩
  · simp only [Panel.anchor_to_panel, Prod.mk_add_mk]
    refine congrArg₂ _ (by ring) (congrArg₂ _ (by ring) (congrArg₂ _ (by ring) (by ring)))
  · simp only [Panel.anchor_to_panel, Prod.smul_mk, smul_eq_mul]
    refine congrArg₂ _ (by ring) (congrArg₂ _ (by ring) (congrArg₂ _ (by ring) (by ring)))

/-! ## render_panel_textures.py -/

namespace RenderTextures

/-- The filesystem / host environment seen by `find_output_dir`:
`os.path.isdir`, whether `os.makedirs` succeeds, `bpy.data.filepath` (the
empty string when the .blend file is unsaved, which Python treats as falsy),
`os.path.expanduser("~")`, `os.path.dirname` and binary `os.path.join` (the
n-ary join is a left fold). -/
structure Env where
  isdir : String → Bool
  makedirs_ok : String → Bool
  blend_filepath : String
  home : String
  dirname : String → String
  joinPath : String → String → String

/-- Python `os.path.join(base, part1, part2, ...)`. -/
def joinAll (env : Env) (base : String) (parts : List String) : String :=
  parts.foldl env.joinPath base

/-- The candidate output directories assembled by `find_output_dir`: two
hard-coded Windows paths, two home-relative paths, and — when a .blend path
exists — a path next to the .blend file inserted at the front. -/
def candidates (env : Env) : List String :=
  let fixed := ["C:\\Users\\craig\\Projects\\Critical\\Assets\\Resources\\ReactorOperatorPanel",
    "C:\\Users\\craig\\Projects\\Critical\\Assets\\Textures\\ReactorOperatorPanel",
    joinAll env env.home ["Projects", "Critical", "Assets", "Resources", "ReactorOperatorPanel"],
    joinAll env env.home ["Projects", "Critical", "Assets", "Textures", "ReactorOperatorPanel"]]
  if env.blend_filepath ≠ "" then
    joinAll env (env.dirname (env.dirname (env.dirname env.blend_filepath)))
      ["Textures", "ReactorOperatorPanel"] :: fixed
  else fixed

/-- The `for path in candidates` loop of `find_output_dir`: take an existing
directory, else try to create it when its parent exists (`except: pass` on
failure), else move on. -/
def findLoop (env : Env) : List String → Option String
  | [] => none
  | p :: rest =>
    if env.isdir p then some p
    else if env.isdir (env.dirname p) && env.makedirs_ok p then some p
    else findLoop env rest

/-- Function `find_output_dir()`: returns the `True`/`False` result together with the
final value of the global `OUTPUT_DIR` (initially `None`).  After the
candidate loop it falls back to the directory of the .blend file, then to the
desktop. -/
def find_output_dir (env : Env) : Bool × Option String :=
  match findLoop env (candidates env) with
  | some p => (true, some p)
  | none =>
    if env.blend_filepath ≠ "" then (true, some (env.dirname env.blend_filepath))
    else (true, some (env.joinPath env.home ("Desktop")))

/-- The result-relevant control flow of `render_panel()`: return `False` when
no object named `ReactorOperatorPanel` is in `bpy.data.objects`, return
`False` when `find_output_dir()` fails, otherwise set up and render (host
calls with no bearing on the return value) and return `True`. -/
def render_panel (env : Env) (scene_objects : List String) : Bool :=
  if !scene_objects.contains ("ReactorOperatorPanel") then false
  else if !(find_output_dir env).1 then false
  else true

end RenderTextures

/-! ## Claim C9: find_output_dir cannot fail -/

/-- C9: `find_output_dir` always returns `True` and always leaves
`OUTPUT_DIR` set to some path, so the "Could not find output directory"
branch of `render_panel` is unreachable, and `render_panel` returns `False`
iff no object named `ReactorOperatorPanel` exists in the scene data. -/
theorem find_output_dir_total (env : RenderTextures.Env) (scene_objects : List String) :
    (RenderTextures.find_output_dir env).1 = true ∧
    (RenderTextures.find_output_dir env).2.isSome = true ∧
    (RenderTextures.render_panel env scene_objects = false ↔
      "ReactorOperatorPanel" ∉ scene_objects) := by
  have h12 : (RenderTextures.find_output_dir env).1 = true ∧
      (RenderTextures.find_output_dir env).2.isSome = true := by
    unfold RenderTextures.find_output_dir
    cases RenderTextures.findLoop env (RenderTextures.candidates env) with
    | none =>
      by_cases hb : env.blend_filepath ≠ "" <;> simp [hb]
    | some p => simp
  refine ⟨h12.1, h12.2, ?_⟩
  unfold RenderTextures.render_panel
  by_cases hmem : "ReactorOperatorPanel" ∈ scene_objects
  · have hc : scene_objects.contains ("ReactorOperatorPanel") = true := by
      simpa [List.elem_eq_mem] using hmem
    simp [hc, h12.1, hmem]
  · have hc : scene_objects.contains ("ReactorOperatorPanel") = false := by
      simp [List.elem_eq_mem, hmem]
    simp [hc, hmem]

/-! ## Claim C3: which entry points clear the scene -/

namespace Scripts

/-- One top-level step of the one-shot entry point of a script, at the granularity
relevant to scene clearing: `clearScene` (`bpy.ops.object.select_all` +
`delete`, plus orphan cleanup), `construct` (creation of meshes, materials or
text objects), `other` (prints, selection, camera/light setup, renders and
other steps that create no meshes or materials). -/
inductive Action where
  | clearScene : Action
  | construct : String → Action
  | other : String → Action
deriving DecidableEq

/-- Whether an action constructs meshes or materials. -/
def isConstruct : Action → Bool
  | Action.construct _ => true
  | _ => false

/-- Function `main()` of `BlenderArcGauge_v1.py`: the scene-clearing lines are present
only as comments ("Clear existing objects (optional - comment out to keep
existing)" with both `bpy.ops` lines commented out), so the entry point goes
straight to construction. -/
def arcGauge_main : List Action :=
  [Action.construct ("create_gauge"), Action.other ("select_gauge"),
    Action.other ("print_export_instructions")]

/-- Function `main()` of `BlenderTemperatureGauge_v1.py`: contains no scene-clearing
step at all. -/
def barGauge_main : List Action :=
  [Action.construct ("create_bar_gauge"), Action.other ("select_gauge"),
    Action.other ("print_export_instructions")]

/-- Function `main()` of `RCS_Primary_Loop_Blender.py`: prints a header, calls
`clear_scene()`, then builds the hierarchy, components, piping, arrows and
labels (sun light and camera are not meshes or materials). -/
def rcs_main : List Action :=
  [Action.other ("print_header"), Action.clearScene,
    Action.construct ("create_root_and_group_empties"),
    Action.construct ("create_reactor_vessel"),
    Action.construct ("create_steam_generators_and_rcps"),
    Action.construct ("create_pressurizer"),
    Action.construct ("create_hot_crossover_cold_legs"),
    Action.construct ("create_surge_line"),
    Action.construct ("create_flow_arrows"),
    Action.construct ("create_loop_labels"),
    Action.other ("select_root"), Action.other ("add_sun_light"),
    Action.other ("add_camera"), Action.other ("print_export_instructions")]

/-- Function `build_panel()` of `create_reactor_panel.py`: prints a header, calls
`clear_scene()`, then creates materials and all panel geometry (area lights
are not meshes or materials; the modifier-apply pass creates nothing). -/
def build_panel_main : List Action :=
  [Action.other ("print_header"), Action.clearScene,
    Action.construct ("create_materials"),
    Action.other ("create_root_empty"),
    Action.construct ("create_main_panel"),
    Action.construct ("left_gauge_panel_label_and_bezels"),
    Action.construct ("core_map_panel"),
    Action.construct ("right_gauge_panel_label_and_bezels"),
    Action.construct ("detail_panel"),
    Action.construct ("bottom_panel_sections"),
    Action.construct ("section_dividers"),
    Action.other ("apply_bevel_modifiers"),
    Action.other ("setup_lighting"),
    Action.other ("select_root_and_finish")]

/-- Function `render_panel()` of `render_panel_textures.py`: checks the panel exists,
finds the output directory, replaces cameras, configures render settings,
rewires an existing material's nodes and renders; it clears nothing and
creates no meshes or materials. -/
def render_panel_main : List Action :=
  [Action.other ("print_banner"), Action.other ("check_panel_exists"),
    Action.other ("find_output_dir"), Action.other ("setup_camera"),
    Action.other ("setup_render_settings"),
    Action.other ("make_recess_materials_transparent"),
    Action.other ("render_write_png")]

/-- The five scripts' entry-point traces. -/
def script_traces : List (String × List Action) :=
  [("BlenderArcGauge_v1.py", arcGauge_main),
    ("BlenderTemperatureGauge_v1.py", barGauge_main),
    ("RCS_Primary_Loop_Blender.py", rcs_main),
    ("create_reactor_panel.py", build_panel_main),
    ("render_panel_textures.py", render_panel_main)]

/-- Predicate `clearsBeforeConstructing tr`: every construction step of `tr` is
preceded by a scene-clearing step (the boolean tracks whether a clear has
been seen). -/
def clearsBeforeConstructingAux : Bool → List Action → Bool
  | _, [] => true
  | _, Action.clearScene :: rest => clearsBeforeConstructingAux true rest
  | seen, Action.construct _ :: rest => seen && clearsBeforeConstructingAux seen rest
  | seen, Action.other _ :: rest => clearsBeforeConstructingAux seen rest

/-- A script clears the scene before constructing anything. -/
def clearsBeforeConstructing (tr : List Action) : Bool :=
  clearsBeforeConstructingAux false tr

end Scripts

/-- C3 counterexample: it is not the case that every script clears the scene
before constructing: `main()` of `BlenderArcGauge_v1.py` constructs its gauge
without any clearing step (the clearing lines are commented out), and the
bar-gauge script likewise. -/
theorem not_every_script_clears_first :
    (Scripts.script_traces.all fun p => Scripts.clearsBeforeConstructing p.2) = false ∧
    Scripts.clearsBeforeConstructing Scripts.arcGauge_main = false ∧
    (Scripts.arcGauge_main.any Scripts.isConstruct) = true := by
  decide

/-- C3, amended: the RCS primary-loop script and the reactor-panel script
clear the scene before constructing meshes and materials; the two gauge
scripts construct without clearing (the arc gauge's clearing calls are
commented out, the bar gauge has none), and the render script constructs no
meshes or materials at all. -/
theorem scripts_clear_scene_status :
    Scripts.clearsBeforeConstructing Scripts.rcs_main = true ∧
    Scripts.clearsBeforeConstructing Scripts.build_panel_main = true ∧
    Scripts.clearsBeforeConstructing Scripts.arcGauge_main = false ∧
    Scripts.clearsBeforeConstructing Scripts.barGauge_main = false ∧
    (Scripts.arcGauge_main.any Scripts.isConstruct) = true ∧
    (Scripts.barGauge_main.any Scripts.isConstruct) = true ∧
    (Scripts.render_panel_main.filter Scripts.isConstruct) = [] := by
  decide
